import Mathlib

/-!
Verification of the BeArt face-swap relay backend (src/main.py) against its
natural-language specification. The Python source is shallowly embedded:
byte buffers become `List Nat`, strings become `String` or `List Char`,
network responses become explicit structures, and the endpoint pipeline
becomes a function from an environment of external outcomes to the
chronological list of observable events it performs.
-/

/-- Raw bytes of an uploaded or downloaded image (Python `bytes`). -/
abbrev Bytes := List Nat

/-- JPEG signature bytes `FF D8 FF`. -/
def sigJPEG : Bytes := [0xFF, 0xD8, 0xFF]

/-- PNG signature bytes `89 50 4E 47 0D 0A 1A 0A`. -/
def sigPNG : Bytes := [0x89, 0x50, 0x4E, 0x47, 0x0D, 0x0A, 0x1A, 0x0A]

/-- GIF87a signature: the ASCII bytes of the string GIF87a. -/
def sigGIF87a : Bytes := [0x47, 0x49, 0x46, 0x38, 0x37, 0x61]

/-- GIF89a signature: the ASCII bytes of the string GIF89a. -/
def sigGIF89a : Bytes := [0x47, 0x49, 0x46, 0x38, 0x39, 0x61]

/-- ASCII bytes of RIFF (WEBP container magic, bytes 0-3). -/
def sigRIFF : Bytes := [0x52, 0x49, 0x46, 0x46]

/-- ASCII bytes of WEBP (bytes 8-11 of a WEBP file). -/
def sigWEBPtag : Bytes := [0x57, 0x45, 0x42, 0x50]

/-- BMP signature: the ASCII bytes BM (`42 4D`). -/
def sigBMP : Bytes := [0x42, 0x4D]

/-- Embedding of `FaceSwapService._validate_image` (src/main.py lines 48-56):
takes `header = image_data[:12]` and returns whether any of the six
signature checks matches. -/
def _validate_image (image_data : Bytes) : Bool :=
  let header := image_data.take 12
  sigJPEG.isPrefixOf header ||
  sigPNG.isPrefixOf header ||
  sigGIF87a.isPrefixOf header ||
  sigGIF89a.isPrefixOf header ||
  (sigRIFF.isPrefixOf header && ((header.drop 8).take 4 == sigWEBPtag)) ||
  sigBMP.isPrefixOf header

/-- Embedding of `FaceSwapService._get_mime_type` (src/main.py lines 59-66):
the same checks in source order, resolving to a MIME string, with the
fallback `image/jpeg` when nothing matches. -/
def _get_mime_type (image_data : Bytes) : String :=
  let header := image_data.take 12
  if sigJPEG.isPrefixOf header then "image/jpeg"
  else if sigPNG.isPrefixOf header then "image/png"
  else if sigGIF87a.isPrefixOf header || sigGIF89a.isPrefixOf header then "image/gif"
  else if sigRIFF.isPrefixOf header && ((header.drop 8).take 4 == sigWEBPtag) then "image/webp"
  else if sigBMP.isPrefixOf header then "image/bmp"
  else "image/jpeg"

/-- Spec-side predicate (from the words of spec section 4.1): the buffer
begins with the JPEG signature, phrased directly on the buffer. -/
def specJPEG (d : Bytes) : Prop := d.take 3 = sigJPEG

/-- Spec-side predicate: the buffer begins with the PNG signature. -/
def specPNG (d : Bytes) : Prop := d.take 8 = sigPNG

/-- Spec-side predicate: the buffer begins with GIF87a. -/
def specGIF87a (d : Bytes) : Prop := d.take 6 = sigGIF87a

/-- Spec-side predicate: the buffer begins with GIF89a. -/
def specGIF89a (d : Bytes) : Prop := d.take 6 = sigGIF89a

/-- Spec-side predicate: bytes 0-3 are RIFF and bytes 8-11 are WEBP. -/
def specWEBP (d : Bytes) : Prop := d.take 4 = sigRIFF ∧ (d.drop 8).take 4 = sigWEBPtag

/-- Spec-side predicate: the buffer begins with BM. -/
def specBMP (d : Bytes) : Prop := d.take 2 = sigBMP

instance (d : Bytes) : Decidable (specJPEG d) := by unfold specJPEG; infer_instance

instance (d : Bytes) : Decidable (specPNG d) := by unfold specPNG; infer_instance

instance (d : Bytes) : Decidable (specGIF87a d) := by unfold specGIF87a; infer_instance

instance (d : Bytes) : Decidable (specGIF89a d) := by unfold specGIF89a; infer_instance

instance (d : Bytes) : Decidable (specWEBP d) := by unfold specWEBP; infer_instance

instance (d : Bytes) : Decidable (specBMP d) := by unfold specBMP; infer_instance

/-- Spec-side MIME resolution (spec section 4.1): first match wins in the
order JPEG, PNG, GIF87a, GIF89a, WEBP, BMP; `none` when unrecognized. -/
def specFormatMime (d : Bytes) : Option String :=
  if specJPEG d then some "image/jpeg"
  else if specPNG d then some "image/png"
  else if specGIF87a d then some "image/gif"
  else if specGIF89a d then some "image/gif"
  else if specWEBP d then some "image/webp"
  else if specBMP d then some "image/bmp"
  else none

/-! ## Authentication: `verify_auth_token` (src/main.py lines 100-106) -/

/-- Outcome of the FastAPI dependency `verify_auth_token`: HTTP 401, HTTP 403,
or success carrying the presented token. -/
inductive AuthResult
  | unauthorized401
  | forbidden403
  | ok (token : List Char)
deriving DecidableEq

/-- Python `str.partition(" ")` restricted to the two components the source
uses: the text before the first space and the text after it (the latter is
empty when the string has no space, as in Python). -/
def partitionSpace : List Char → List Char × List Char
  | [] => ([], [])
  | c :: cs =>
    if c = ' ' then ([], cs)
    else ((c :: (partitionSpace cs).1), (partitionSpace cs).2)

/-- Python `str.lower()` on the characters the claims exercise. -/
def pyLower (s : List Char) : List Char := s.map Char.toLower

/-- Embedding of `verify_auth_token`: a missing header is `none`; Python
`if not authorization` also treats the empty string as falsy; then
`scheme, _, token = authorization.partition(" ")` and the check
`scheme.lower() != "bearer" or token not in valid_tokens`. -/
def verify_auth_token (validTokens : List (List Char))
    (authorization : Option (List Char)) : AuthResult :=
  match authorization with
  | none => .unauthorized401
  | some s =>
    if s = [] then .unauthorized401
    else if pyLower (partitionSpace s).1 ≠ "bearer".data ∨
        (partitionSpace s).2 ∉ validTokens then .forbidden403
    else .ok (partitionSpace s).2

/-! ## External Job Client: polling (src/main.py lines 84-97) -/

/-- One parsed JSON poll response from the vendor job-status route: the HTTP
status, the `code` field (`none` when absent), and the `result.output` list
(`none` when `result` or `output` is missing). -/
structure PollResp where
  status : Nat
  code : Option Int
  output : Option (List String)

/-- How one run of `get_face_swap_result` ends. `crash` is the unguarded
KeyError or IndexError raised by `data["result"]["output"][0]` when the
output list is missing or empty. -/
inductive PollOutcome
  | ok (url : String)
  | fetchFail
  | retryExceeded
  | crash
deriving DecidableEq

/-- Embedding of the polling loop of `get_face_swap_result`: `i` is the index
of the next poll attempt, the fuel is the number of loop iterations left, and
the result pairs the outcome with the number of network calls performed. -/
def pollAux (rs : Nat → PollResp) : Nat → Nat → PollOutcome × Nat
  | _, 0 => (.retryExceeded, 0)
  | i, fuel + 1 =>
    if (rs i).status = 200 then
      if (rs i).code = some 100000 then
        match (rs i).output with
        | some (u :: _) => (.ok u, 1)
        | some [] => (.crash, 1)
        | none => (.crash, 1)
      else if (rs i).code = some 300001 then
        ((pollAux rs (i + 1) fuel).1, (pollAux rs (i + 1) fuel).2 + 1)
      else (.fetchFail, 1)
    else (.fetchFail, 1)

/-- Embedding of `get_face_swap_result(job_id, retries=30, interval=2)`: the
poll responses are indexed by attempt number; the job id and the sleep
interval do not influence the control flow modelled here. -/
def get_face_swap_result (rs : Nat → PollResp) (retries : Nat := 30) : PollOutcome × Nat :=
  pollAux rs 0 retries

/-- A still-processing poll response: HTTP 200 with vendor code 300001. -/
def stillProcessing (r : PollResp) : Prop := r.status = 200 ∧ r.code = some 300001

/-- A terminal success poll response: HTTP 200 with vendor code 100000. -/
def successResp (r : PollResp) : Prop := r.status = 200 ∧ r.code = some 100000

/-! ## External Job Client: job creation (src/main.py lines 69-81) -/

/-- One parsed JSON create-job response: HTTP status, the `code` field, the
`result.job_id` field (`none` when missing), and the raw body text. -/
structure CreateResp where
  status : Nat
  code : Option Int
  jobId : Option String
  text : String

/-- How `create_face_swap_job` ends: the job id, the raised upstream error,
or an unguarded KeyError when a 200/100000 response lacks `result.job_id`. -/
inductive CreateOutcome
  | ok (jobId : String)
  | upstreamErr (msg : String)
  | crash
deriving DecidableEq

/-- Embedding of `create_face_swap_job`: returns `result.job_id` when the
response has HTTP 200 and code 100000, and otherwise raises the exception
whose message carries the raw response text. -/
def create_face_swap_job (resp : CreateResp) : CreateOutcome :=
  if resp.status = 200 ∧ resp.code = some 100000 then
    match resp.jobId with
    | some j => .ok j
    | none => .crash
  else .upstreamErr ("BeArt 任务创建失败: " ++ resp.text)

/-- Embedding of the `files` dictionary built by `create_face_swap_job`
(src/main.py lines 74-77): multipart field name, attached filename, bytes and
resolved MIME type, in source order. -/
def createJobFiles (source_image target_image : Bytes) :
    List (String × String × Bytes × String) :=
  [("target_image", "target.jpg", source_image, _get_mime_type source_image),
   ("swap_image", "source.jpg", target_image, _get_mime_type target_image)]

/-! ## Storage Publisher: `upload_to_cos` (src/main.py lines 125-131) -/

/-- How `upload_to_cos` ends. -/
inductive UploadOutcome
  | ok (url : String)
  | uploadErr (msg : String)
deriving DecidableEq

/-- Embedding of `upload_to_cos`: the provider response is modelled by the
set of keys it contains; `if 'ETag' in resp` yields the virtual-hosted
public URL, otherwise `raise Exception("上传失败")`. -/
def upload_to_cos (region bucket file_name : String) (respKeys : List String) : UploadOutcome :=
  if "ETag" ∈ respKeys then
    .ok ("https://" ++ bucket ++ ".cos." ++ region ++ ".myqcloud.com/" ++ file_name)
  else .uploadErr "上传失败"

/-! ## HTTP endpoint `face_swap` (src/main.py lines 134-151) -/

/-- The HTTP response the endpoint produces: the success JSON body with the
storage URL and the original vendor URL, or an HTTPException with status and
detail. -/
inductive HttpResp
  | success (image_url original_url : String)
  | error (status : Nat) (detail : String)
deriving DecidableEq

/-- Observable steps one request performs, in chronological order. -/
inductive Event
  | vendorCreateCall
  | vendorPollCall
  | downloadWrite
  | uploadAttempt
  | removeLocalFile
  | respond (r : HttpResp)
deriving DecidableEq

/-- The textual rendering of a starlette HTTPException, as the catch-all
interpolates it. -/
def httpExcStr (status : Nat) (detail : String) : String :=
  toString status ++ ": " ++ detail

/-- The endpoint catch-all `except Exception`: it converts any raised
exception into HTTPException 500 with 处理失败 plus the exception text. -/
def wrap500 (msg : String) : HttpResp := .error 500 ("处理失败: " ++ msg)

/-- Stand-in text of the unguarded KeyError raised when a 200/100000
create response lacks `result.job_id`; its rendering is irrelevant here. -/
def keyErrorText : String := "KeyError"

/-- Stand-in text of the unguarded IndexError or KeyError raised by the poll
success branch when the output list is missing or empty. -/
def outputIndexErrorText : String := "IndexError"

/-- Stand-in text of the requests HTTPError raised by `raise_for_status` on
a failed result download. -/
def downloadErrorText : String := "HTTPError"

/-- Everything external one request observes: the two uploaded buffers, the
vendor create response, the vendor poll responses by attempt index, whether
the download GET succeeds, the key set of the COS response, and the
configured region, bucket and generated file name. -/
structure Env where
  source_data : Bytes
  target_data : Bytes
  createResp : CreateResp
  pollResps : Nat → PollResp
  downloadOk : Bool
  cosKeys : List String
  region : String
  bucket : String
  fileName : String

/-- Embedding of the `face_swap` endpoint body — the code inside `try` plus
its catch-all — as the chronological list of observable events. The
`HTTPException(400)` raised for an unsupported format is itself an
`Exception`, so the `except` clause catches it and answers with the generic
500, exactly as the source does. The local file only exists after a
successful download (`raise_for_status` precedes the write) and `os.remove`
runs only after a successful upload, just before the success response. -/
def face_swap_body (e : Env) : List Event :=
  if _validate_image e.source_data && _validate_image e.target_data then
    match create_face_swap_job e.createResp with
    | .ok _ =>
      Event.vendorCreateCall ::
        (List.replicate (get_face_swap_result e.pollResps 30).2 Event.vendorPollCall ++
          match (get_face_swap_result e.pollResps 30).1 with
          | .ok result_url =>
            if e.downloadOk then
              Event.downloadWrite :: Event.uploadAttempt ::
                (match upload_to_cos e.region e.bucket e.fileName e.cosKeys with
                 | .ok cos_url =>
                   [Event.removeLocalFile, Event.respond (.success cos_url result_url)]
                 | .uploadErr m => [Event.respond (wrap500 m)])
            else [Event.respond (wrap500 downloadErrorText)]
          | .fetchFail => [Event.respond (wrap500 "换脸结果获取失败")]
          | .retryExceeded => [Event.respond (wrap500 "超过最大重试次数")]
          | .crash => [Event.respond (wrap500 outputIndexErrorText)])
    | .upstreamErr m => [Event.vendorCreateCall, Event.respond (wrap500 m)]
    | .crash => [Event.vendorCreateCall, Event.respond (wrap500 keyErrorText)]
  else [Event.respond (wrap500 (httpExcStr 400 "图片格式不支持"))]

/-- The full request handler: FastAPI resolves `Depends(verify_auth_token)`
before the endpoint body runs, so the two auth failures respond directly and
are not seen by the endpoint try block. -/
def handle_face_swap (validTokens : List (List Char)) (authorization : Option (List Char))
    (e : Env) : List Event :=
  match verify_auth_token validTokens authorization with
  | .unauthorized401 => [Event.respond (.error 401 "Missing Authorization Header")]
  | .forbidden403 => [Event.respond (.error 403 "Invalid or Expired Token")]
  | .ok _ => face_swap_body e

/-- Number of network calls made to the vendor within an event list. -/
def vendorCalls (evs : List Event) : Nat :=
  evs.countP (fun ev => ev == Event.vendorCreateCall || ev == Event.vendorPollCall)

/-- The default allow-list from configuration, `token1,token2`. -/
def defaultTokens : List (List Char) := ["token1".data, "token2".data]

/-- A concrete environment for an authenticated request whose source upload
has no recognized magic-number signature. -/
def badFormatEnv : Env where
  source_data := [0x00, 0x01, 0x02, 0x03]
  target_data := sigPNG ++ [0, 0, 0, 0]
  createResp := ⟨200, some 100000, some "J1", ""⟩
  pollResps := fun _ => ⟨200, some 100000, some ["u"]⟩
  downloadOk := true
  cosKeys := ["ETag"]
  region := "ap"
  bucket := "b"
  fileName := "f.jpg"

/-- A concrete environment in which every step succeeds. -/
def goodEnv : Env where
  source_data := sigJPEG ++ [0, 0, 0]
  target_data := sigBMP ++ [0]
  createResp := ⟨200, some 100000, some "J1", ""⟩
  pollResps := fun _ => ⟨200, some 100000, some ["https://v/out.jpg"]⟩
  downloadOk := true
  cosKeys := ["ETag"]
  region := "r"
  bucket := "b"
  fileName := "f.jpg"

theorem isPrefixOf_iff_take (p : Bytes) : ∀ l : Bytes, p.isPrefixOf l = true ↔ l.take p.length = p := by
  induction p with
  | nil => intro l; simp [List.isPrefixOf]
  | cons a as ih =>
    intro l
    cases l with
    | nil => simp [List.isPrefixOf]
    | cons b bs =>
      simp only [List.isPrefixOf, Bool.and_eq_true, beq_iff_eq, List.length_cons,
        List.take_succ_cons, List.cons.injEq]
      constructor
      · rintro ⟨h1, h2⟩; exact ⟨h1.symm, (ih bs).1 h2⟩
      · rintro ⟨h1, h2⟩; exact ⟨h1.symm, (ih bs).2 h2⟩

theorem sig_check_take12 (p : Bytes) (d : Bytes) (hp : p.length ≤ 12) :
    p.isPrefixOf (d.take 12) = true ↔ d.take p.length = p := by
  rw [isPrefixOf_iff_take, List.take_take, Nat.min_eq_left hp]

theorem webp_tail_take12 (d : Bytes) :
    (((d.take 12).drop 8).take 4 == sigWEBPtag) = true ↔ (d.drop 8).take 4 = sigWEBPtag := by
  rw [List.drop_take]
  simp [List.take_take]

/-- C4: format validation accepts a buffer iff its leading bytes match one of
the six recognized signatures, and MIME resolution returns the matching MIME
for a recognized buffer and `image/jpeg` for every unrecognized buffer. -/
theorem C4_sniffer_correct (d : Bytes) :
    (_validate_image d = true ↔
      specJPEG d ∨ specPNG d ∨ specGIF87a d ∨ specGIF89a d ∨ specWEBP d ∨ specBMP d) ∧
    _get_mime_type d = (specFormatMime d).getD "image/jpeg" := by
  have hj : sigJPEG.isPrefixOf (d.take 12) = true ↔ specJPEG d :=
    sig_check_take12 sigJPEG d (by decide)
  have hp : sigPNG.isPrefixOf (d.take 12) = true ↔ specPNG d :=
    sig_check_take12 sigPNG d (by decide)
  have h7 : sigGIF87a.isPrefixOf (d.take 12) = true ↔ specGIF87a d :=
    sig_check_take12 sigGIF87a d (by decide)
  have h9 : sigGIF89a.isPrefixOf (d.take 12) = true ↔ specGIF89a d :=
    sig_check_take12 sigGIF89a d (by decide)
  have hr : sigRIFF.isPrefixOf (d.take 12) = true ↔ d.take 4 = sigRIFF :=
    sig_check_take12 sigRIFF d (by decide)
  have hb : sigBMP.isPrefixOf (d.take 12) = true ↔ specBMP d :=
    sig_check_take12 sigBMP d (by decide)
  have hw := webp_tail_take12 d
  constructor
  · simp only [_validate_image, Bool.or_eq_true, Bool.and_eq_true, hj, hp, h7, h9, hr, hb, hw,
      specWEBP, or_assoc]
  · unfold _get_mime_type specFormatMime
    by_cases c1 : specJPEG d
    · rw [if_pos (hj.mpr c1), if_pos c1]; rfl
    · rw [if_neg (fun h => c1 (hj.mp h)), if_neg c1]
      by_cases c2 : specPNG d
      · rw [if_pos (hp.mpr c2), if_pos c2]; rfl
      · rw [if_neg (fun h => c2 (hp.mp h)), if_neg c2]
        by_cases c3 : specGIF87a d
        · rw [if_pos (show _ from by rw [Bool.or_eq_true, h7, h9]; exact Or.inl c3), if_pos c3]
          rfl
        · rw [if_neg c3]
          by_cases c4 : specGIF89a d
          · rw [if_pos (show _ from by rw [Bool.or_eq_true, h7, h9]; exact Or.inr c4), if_pos c4]
            rfl
          · rw [if_neg (show _ from by rw [Bool.or_eq_true, h7, h9]; exact not_or.mpr ⟨c3, c4⟩),
              if_neg c4]
            by_cases c5 : specWEBP d
            · rw [if_pos (show _ from by rw [Bool.and_eq_true, hr, hw]; exact c5), if_pos c5]
              rfl
            · rw [if_neg (show _ from by rw [Bool.and_eq_true, hr, hw]; exact c5), if_neg c5]
              by_cases c6 : specBMP d
              · rw [if_pos (hb.mpr c6), if_pos c6]; rfl
              · rw [if_neg (fun h => c6 (hb.mp h)), if_neg c6]; rfl

/-- C3 counterexample: a request carrying a present but empty
`Authorization` header has a scheme (the empty string) that is not Bearer,
so the claim as stated demands 403; the code answers 401 because Python
treats the empty string as falsy in `if not authorization`. -/
theorem C3_counterexample :
    pyLower (partitionSpace "".data).1 ≠ "bearer".data ∧
    verify_auth_token ["token1".data, "token2".data] (some "".data) = .unauthorized401 ∧
    verify_auth_token ["token1".data, "token2".data] (some "".data) ≠ .forbidden403 := by
  decide

/-- C3 (amended): an absent or empty Authorization header yields 401; a
present nonempty header whose scheme (text before the first space,
case-folded) is not bearer, or whose token is outside the allow-list,
yields 403; a bearer scheme with an allow-listed token proceeds past auth
with that token. -/
theorem C3_auth_cases (validTokens : List (List Char)) (auth : Option (List Char)) :
    (auth = none → verify_auth_token validTokens auth = .unauthorized401) ∧
    (auth = some [] → verify_auth_token validTokens auth = .unauthorized401) ∧
    (∀ s, auth = some s → s ≠ [] →
      pyLower (partitionSpace s).1 ≠ "bearer".data ∨ (partitionSpace s).2 ∉ validTokens →
      verify_auth_token validTokens auth = .forbidden403) ∧
    (∀ s, auth = some s →
      pyLower (partitionSpace s).1 = "bearer".data → (partitionSpace s).2 ∈ validTokens →
      verify_auth_token validTokens auth = .ok (partitionSpace s).2) := by
  refine ⟨?_, ?_, ?_, ?_⟩
  · rintro rfl; rfl
  · rintro rfl; rfl
  · rintro s rfl hne hbad
    simp only [verify_auth_token, if_neg hne]
    rw [if_pos hbad]
  · rintro s rfl hsch htok
    have hne : s ≠ [] := by
      rintro rfl
      exact absurd hsch (by decide)
    simp only [verify_auth_token, if_neg hne]
    rw [if_neg (show ¬(pyLower (partitionSpace s).1 ≠ "bearer".data ∨
      (partitionSpace s).2 ∉ validTokens) from by push_neg; exact ⟨hsch, htok⟩)]

/-- Witness for C3_auth_cases at a concrete allow-listed bearer request. -/
theorem C3_auth_cases_witness :
    verify_auth_token ["token1".data] (some ("Bearer token1").data) =
      .ok (partitionSpace ("Bearer token1").data).2 :=
  (C3_auth_cases ["token1".data] (some ("Bearer token1").data)).2.2.2
    ("Bearer token1").data rfl (by decide) (by decide)

theorem partitionSpace_append (sch tok : List Char) (h : ' ' ∉ sch) :
    partitionSpace (sch ++ ' ' :: tok) = (sch, tok) := by
  induction sch with
  | nil => simp [partitionSpace]
  | cons c cs ih =>
    have hc : c ≠ ' ' := fun hc => h (hc ▸ List.mem_cons_self c cs)
    have hcs : ' ' ∉ cs := fun hm => h (List.mem_cons_of_mem c hm)
    simp only [List.cons_append, partitionSpace, if_neg hc, List.append_eq, ih hcs]

/-- C10: the scheme comparison is case-insensitive: any capitalization of
bearer followed by a single space and an allow-listed token authenticates,
returning the token; the capitalization alone never produces a 403. -/
theorem C10_scheme_case_insensitive (validTokens : List (List Char)) (sch tok : List Char)
    (hsch : pyLower sch = "bearer".data) (htok : tok ∈ validTokens) :
    verify_auth_token validTokens (some (sch ++ ' ' :: tok)) = .ok tok := by
  have hnospace : ' ' ∉ sch := by
    intro hm
    have : (' ' : Char) ∈ pyLower sch := by
      have : Char.toLower ' ' ∈ pyLower sch := List.mem_map_of_mem Char.toLower hm
      simpa using this
    rw [hsch] at this
    exact absurd this (by decide)
  have hne : sch ++ ' ' :: tok ≠ [] := by simp
  simp only [verify_auth_token, if_neg hne, partitionSpace_append sch tok hnospace]
  rw [if_neg (show ¬(pyLower sch ≠ "bearer".data ∨ tok ∉ validTokens) from by
    push_neg; exact ⟨hsch, htok⟩)]

/-- Witness for C10 with an upper-case scheme spelling. -/
theorem C10_scheme_case_insensitive_witness :
    verify_auth_token ["token1".data] (some ("BEARER".data ++ ' ' :: "token1".data)) =
      .ok "token1".data :=
  C10_scheme_case_insensitive ["token1".data] "BEARER".data "token1".data
    (by decide) (by decide)

theorem pollAux_still (rs : Nat → PollResp) (i fuel : Nat) (h : stillProcessing (rs i)) :
    pollAux rs i (fuel + 1) = ((pollAux rs (i + 1) fuel).1, (pollAux rs (i + 1) fuel).2 + 1) := by
  obtain ⟨h1, h2⟩ := h
  simp [pollAux, h1, h2]

theorem pollAux_success (rs : Nat → PollResp) (i fuel : Nat)
    (h1 : (rs i).status = 200) (h2 : (rs i).code = some 100000)
    (u : String) (rest : List String) (ho : (rs i).output = some (u :: rest)) :
    pollAux rs i (fuel + 1) = (.ok u, 1) := by
  simp [pollAux, h1, h2, ho]

theorem pollAux_crash (rs : Nat → PollResp) (i fuel : Nat)
    (h1 : (rs i).status = 200) (h2 : (rs i).code = some 100000)
    (ho : (rs i).output = some [] ∨ (rs i).output = none) :
    pollAux rs i (fuel + 1) = (.crash, 1) := by
  rcases ho with ho | ho <;> simp [pollAux, h1, h2, ho]

theorem pollAux_fail (rs : Nat → PollResp) (i fuel : Nat)
    (hs : ¬ successResp (rs i)) (hp : ¬ stillProcessing (rs i)) :
    pollAux rs i (fuel + 1) = (.fetchFail, 1) := by
  by_cases h1 : (rs i).status = 200
  · have h2 : (rs i).code ≠ some 100000 := fun hc => hs ⟨h1, hc⟩
    have h3 : (rs i).code ≠ some 300001 := fun hc => hp ⟨h1, hc⟩
    simp [pollAux, h1, h2, h3]
  · simp [pollAux, h1]

theorem pollAux_still_run (rs : Nat → PollResp) :
    ∀ k fuel i, k ≤ fuel → (∀ j, j < k → stillProcessing (rs (i + j))) →
    pollAux rs i fuel =
      ((pollAux rs (i + k) (fuel - k)).1, (pollAux rs (i + k) (fuel - k)).2 + k) := by
  intro k
  induction k with
  | zero => intro fuel i _ _; simp
  | succ k ih =>
    intro fuel i hk hp
    obtain ⟨f, rfl⟩ : ∃ f, fuel = f + 1 := ⟨fuel - 1, by omega⟩
    rw [pollAux_still rs i f (by simpa using hp 0 (Nat.succ_pos k))]
    have hp' : ∀ j, j < k → stillProcessing (rs (i + 1 + j)) := by
      intro j hj
      have := hp (j + 1) (by omega)
      have e : i + (j + 1) = i + 1 + j := by omega
      rwa [e] at this
    rw [ih f (i + 1) (by omega) hp']
    have e1 : i + 1 + k = i + (k + 1) := by omega
    have e2 : f - k = f + 1 - (k + 1) := by omega
    rw [e1, e2]
    rfl

theorem pollAux_all_still (rs : Nat → PollResp) (fuel i : Nat)
    (hp : ∀ j, j < fuel → stillProcessing (rs (i + j))) :
    pollAux rs i fuel = (.retryExceeded, fuel) := by
  have := pollAux_still_run rs fuel fuel i (le_refl fuel) hp
  simpa [pollAux] using this

theorem pollAux_ok_inv (rs : Nat → PollResp) :
    ∀ fuel i u n, pollAux rs i fuel = (.ok u, n) →
    ∃ k, k < fuel ∧ (∀ j, j < k → stillProcessing (rs (i + j))) ∧
      (rs (i + k)).status = 200 ∧ (rs (i + k)).code = some 100000 ∧
      (∃ rest, (rs (i + k)).output = some (u :: rest)) ∧ n = k + 1 := by
  intro fuel
  induction fuel with
  | zero =>
    intro i u n h
    exact absurd (congrArg Prod.fst h) (by simp [pollAux])
  | succ fuel ih =>
    intro i u n h
    by_cases h1 : (rs i).status = 200
    · by_cases h2 : (rs i).code = some 100000
      · cases ho : (rs i).output with
        | none =>
          rw [pollAux_crash rs i fuel h1 h2 (Or.inr ho)] at h
          exact absurd (congrArg Prod.fst h) (by simp)
        | some l =>
          cases l with
          | nil =>
            rw [pollAux_crash rs i fuel h1 h2 (Or.inl ho)] at h
            exact absurd (congrArg Prod.fst h) (by simp)
          | cons v rest =>
            rw [pollAux_success rs i fuel h1 h2 v rest ho] at h
            have hfst := congrArg Prod.fst h
            have hsnd := congrArg Prod.snd h
            simp only at hfst hsnd
            injection hfst with hv
            refine ⟨0, by omega, ?_, by simpa using h1, by simpa using h2, ?_, by omega⟩
            · intro j hj; exact absurd hj (Nat.not_lt_zero j)
            · exact ⟨rest, by rw [← hv]; simpa using ho⟩
      · by_cases h3 : (rs i).code = some 300001
        · rw [pollAux_still rs i fuel ⟨h1, h3⟩] at h
          have hfst := congrArg Prod.fst h
          have hsnd := congrArg Prod.snd h
          simp only at hfst hsnd
          have hrec : pollAux rs (i + 1) fuel = (.ok u, (pollAux rs (i + 1) fuel).2) := by
            rw [← hfst]
          obtain ⟨k, hk, hpend, hst, hcode, hout, hn⟩ := ih (i + 1) u _ hrec
          refine ⟨k + 1, by omega, ?_, ?_, ?_, ?_, by omega⟩
          · intro j hj
            cases j with
            | zero => simpa using (⟨h1, h3⟩ : stillProcessing (rs i))
            | succ j' =>
              have := hpend j' (by omega)
              have e : i + (j' + 1) = i + 1 + j' := by omega
              rwa [e]
          · have e : i + (k + 1) = i + 1 + k := by omega
            rwa [e]
          · have e : i + (k + 1) = i + 1 + k := by omega
            rwa [e]
          · have e : i + (k + 1) = i + 1 + k := by omega
            rwa [e]
        · rw [pollAux_fail rs i fuel (fun hc => h2 hc.2) (fun hc => h3 hc.2)] at h
          exact absurd (congrArg Prod.fst h) (by simp)
    · rw [pollAux_fail rs i fuel (fun hc => h1 hc.1) (fun hc => h1 hc.1)] at h
      exact absurd (congrArg Prod.fst h) (by simp)

/-- C2: `poll_job` with the default 30 retries: a success return requires a
still-processing prefix followed by an HTTP 200 response with code 100000
whose output list starts with the returned url, and consumes one call per
attempt; such a response at attempt k indeed returns its first output element
after k+1 calls; a response that is neither success nor still-processing
fails immediately after exactly k+1 calls; and 30 still-processing responses
exhaust the retry ceiling with exactly 30 network calls. -/
theorem C2_poll_protocol (rs : Nat → PollResp) :
    (∀ u n, get_face_swap_result rs 30 = (.ok u, n) →
      ∃ k, k < 30 ∧ (∀ j, j < k → stillProcessing (rs j)) ∧
        (rs k).status = 200 ∧ (rs k).code = some 100000 ∧
        (∃ rest, (rs k).output = some (u :: rest)) ∧ n = k + 1) ∧
    (∀ k u rest, k < 30 → (∀ j, j < k → stillProcessing (rs j)) →
      (rs k).status = 200 → (rs k).code = some 100000 → (rs k).output = some (u :: rest) →
      get_face_swap_result rs 30 = (.ok u, k + 1)) ∧
    (∀ k, k < 30 → (∀ j, j < k → stillProcessing (rs j)) →
      ¬ successResp (rs k) → ¬ stillProcessing (rs k) →
      get_face_swap_result rs 30 = (.fetchFail, k + 1)) ∧
    ((∀ j, j < 30 → stillProcessing (rs j)) →
      get_face_swap_result rs 30 = (.retryExceeded, 30)) := by
  refine ⟨?_, ?_, ?_, ?_⟩
  · intro u n h
    obtain ⟨k, hk, hpend, hst, hcode, hout, hn⟩ := pollAux_ok_inv rs 30 0 u n h
    exact ⟨k, hk, by simpa using hpend, by simpa using hst, by simpa using hcode,
      by simpa using hout, hn⟩
  · intro k u rest hk hpend hst hcode hout
    have hrun := pollAux_still_run rs k 30 0 (by omega) (by simpa using hpend)
    obtain ⟨f, hf⟩ : ∃ f, 30 - k = f + 1 := ⟨30 - k - 1, by omega⟩
    rw [get_face_swap_result, hrun, hf,
      pollAux_success rs (0 + k) f (by simpa using hst) (by simpa using hcode) u rest
        (by simpa using hout)]
    simp [Nat.add_comm]
  · intro k hk hpend hs hp
    have hrun := pollAux_still_run rs k 30 0 (by omega) (by simpa using hpend)
    obtain ⟨f, hf⟩ : ∃ f, 30 - k = f + 1 := ⟨30 - k - 1, by omega⟩
    rw [get_face_swap_result, hrun, hf,
      pollAux_fail rs (0 + k) f (by simpa using hs) (by simpa using hp)]
    simp [Nat.add_comm]
  · intro hpend
    exact pollAux_all_still rs 30 0 (by simpa using hpend)

/-- Witness for C2_poll_protocol: thirty still-processing answers exhaust the
retry ceiling after exactly 30 calls. -/
theorem C2_poll_protocol_witness :
    get_face_swap_result (fun _ => ⟨200, some 300001, none⟩) 30 = (.retryExceeded, 30) :=
  (C2_poll_protocol (fun _ => ⟨200, some 300001, none⟩)).2.2.2 (fun _ _ => ⟨rfl, rfl⟩)

/-- C9: when the first non-still-processing poll response has HTTP 200 and
code 100000 but its output list is empty or missing, the loop ends in the
unguarded indexing error, not in a success value and not in one of the two
declared poll failures. -/
theorem C9_unguarded_output_index (rs : Nat → PollResp) (k : Nat)
    (hk : k < 30) (hpend : ∀ j, j < k → stillProcessing (rs j))
    (h1 : (rs k).status = 200) (h2 : (rs k).code = some 100000)
    (ho : (rs k).output = some [] ∨ (rs k).output = none) :
    get_face_swap_result rs 30 = (.crash, k + 1) := by
  have hrun := pollAux_still_run rs k 30 0 (by omega) (by simpa using hpend)
  obtain ⟨f, hf⟩ : ∃ f, 30 - k = f + 1 := ⟨30 - k - 1, by omega⟩
  rw [get_face_swap_result, hrun, hf,
    pollAux_crash rs (0 + k) f (by simpa using h1) (by simpa using h2) (by simpa using ho)]
  simp [Nat.add_comm]

/-- Witness for C9 at a first response with an empty output list. -/
theorem C9_unguarded_output_index_witness :
    get_face_swap_result (fun _ => ⟨200, some 100000, some []⟩) 30 = (.crash, 1) :=
  C9_unguarded_output_index (fun _ => ⟨200, some 100000, some []⟩) 0 (by omega)
    (fun j hj => absurd hj (Nat.not_lt_zero j)) rfl rfl (Or.inl rfl)

/-- C5: job creation returns a job id exactly when the response has HTTP 200,
vendor code 100000 and that id; every response failing the 200/100000 test
ends in the upstream error whose message carries the raw response body. -/
theorem C5_create_job (resp : CreateResp) :
    (∀ j, create_face_swap_job resp = .ok j ↔
      resp.status = 200 ∧ resp.code = some 100000 ∧ resp.jobId = some j) ∧
    (¬(resp.status = 200 ∧ resp.code = some 100000) →
      create_face_swap_job resp = .upstreamErr ("BeArt 任务创建失败: " ++ resp.text)) := by
  constructor
  · intro j
    constructor
    · intro h
      by_cases hc : resp.status = 200 ∧ resp.code = some 100000
      · cases hj : resp.jobId with
        | none => simp [create_face_swap_job, hc, hj] at h
        | some jo =>
          simp only [create_face_swap_job, if_pos hc, hj] at h
          injection h with hjj
          exact ⟨hc.1, hc.2, by rw [hjj]⟩
      · simp [create_face_swap_job, hc] at h
    · rintro ⟨h1, h2, h3⟩
      simp [create_face_swap_job, h1, h2, h3]
  · intro hc
    simp [create_face_swap_job, hc]

/-- Witness for C5_create_job at a failed response body. -/
theorem C5_create_job_witness :
    create_face_swap_job ⟨500, none, none, "oops"⟩ =
      .upstreamErr ("BeArt 任务创建失败: " ++ "oops") :=
  (C5_create_job ⟨500, none, none, "oops"⟩).2 (by decide)

/-- C6: the outbound multipart payload sends the caller sourceImage under the
vendor field `target_image` and the caller targetImage under `swap_image`,
each with its resolved MIME type. -/
theorem C6_field_mapping (source_image target_image : Bytes) :
    (createJobFiles source_image target_image).lookup "target_image" =
      some ("target.jpg", source_image, _get_mime_type source_image) ∧
    (createJobFiles source_image target_image).lookup "swap_image" =
      some ("source.jpg", target_image, _get_mime_type target_image) := by
  constructor <;> rfl

/-- C7: the upload returns `https://<bucket>.cos.<region>.myqcloud.com/<key>`
iff the provider response contains the ETag marker, and fails with the
storage-upload failure when the marker is absent. -/
theorem C7_upload (region bucket file_name : String) (respKeys : List String) :
    (∀ url, upload_to_cos region bucket file_name respKeys = .ok url ↔
      ("ETag" ∈ respKeys ∧
        url = "https://" ++ bucket ++ ".cos." ++ region ++ ".myqcloud.com/" ++ file_name)) ∧
    ("ETag" ∉ respKeys →
      upload_to_cos region bucket file_name respKeys = .uploadErr "上传失败") := by
  constructor
  · intro url
    by_cases h : "ETag" ∈ respKeys
    · simp only [upload_to_cos, if_pos h]
      constructor
      · intro he; injection he with hu; exact ⟨h, hu.symm⟩
      · rintro ⟨_, rfl⟩; rfl
    · simp only [upload_to_cos, if_neg h]
      constructor
      · intro he; cases he
      · rintro ⟨hm, _⟩; exact absurd hm h
  · intro h
    simp [upload_to_cos, h]

/-- Witness for C7_upload: a response without the ETag marker fails. -/
theorem C7_upload_witness :
    upload_to_cos "ap" "bkt" "f.jpg" [] = .uploadErr "上传失败" :=
  (C7_upload "ap" "bkt" "f.jpg" []).2 (by decide)

/-- C1 divergence evidence: an authenticated request whose source buffer has
no recognized signature indeed reaches the vendor zero times, but the
response is the 500 produced by the catch-all swallowing the
HTTPException(400) — not the 400 client error the claim states. -/
theorem C1_format_rejection_responds_500 :
    handle_face_swap defaultTokens (some ("Bearer token1").data) badFormatEnv =
      [Event.respond (HttpResp.error 500 ("处理失败: " ++ httpExcStr 400 "图片格式不支持"))] ∧
    vendorCalls (handle_face_swap defaultTokens (some ("Bearer token1").data) badFormatEnv) = 0 ∧
    (∀ detail, Event.respond (HttpResp.error 400 detail) ∉
      handle_face_swap defaultTokens (some ("Bearer token1").data) badFormatEnv) := by
  refine ⟨by decide, by decide, ?_⟩
  intro detail
  have h : handle_face_swap defaultTokens (some ("Bearer token1").data) badFormatEnv =
      [Event.respond (HttpResp.error 500 ("处理失败: " ++ httpExcStr 400 "图片格式不支持"))] := by
    decide
  rw [h]
  simp

/-- C8: once a request reaches the download step (both uploads validate, job
creation and polling succeed): when download and upload both succeed, the
local artifact removal happens right after the upload and right before the
success response, and at no earlier point; when the download succeeds but
the upload fails, the file was written and no removal event ever occurs —
the deletion happens only on the success path. -/
theorem C8_cleanup_only_on_success (e : Env) (j u : String)
    (hv1 : _validate_image e.source_data = true)
    (hv2 : _validate_image e.target_data = true)
    (hc : create_face_swap_job e.createResp = .ok j)
    (hpoll : (get_face_swap_result e.pollResps 30).1 = .ok u) :
    (e.downloadOk = true → "ETag" ∈ e.cosKeys →
      ∃ pre cos_url, face_swap_body e =
          pre ++ [Event.uploadAttempt, Event.removeLocalFile,
            Event.respond (.success cos_url u)] ∧
        Event.removeLocalFile ∉ pre) ∧
    (e.downloadOk = true → "ETag" ∉ e.cosKeys →
      Event.downloadWrite ∈ face_swap_body e ∧
      Event.removeLocalFile ∉ face_swap_body e ∧
      Event.respond (wrap500 "上传失败") ∈ face_swap_body e) := by
  constructor
  · intro hd he
    refine ⟨Event.vendorCreateCall ::
        (List.replicate (get_face_swap_result e.pollResps 30).2 Event.vendorPollCall ++
          [Event.downloadWrite]),
      "https://" ++ e.bucket ++ ".cos." ++ e.region ++ ".myqcloud.com/" ++ e.fileName,
      ?_, ?_⟩
    · simp only [face_swap_body, hv1, hv2, Bool.and_self, if_pos, hc, hpoll, hd,
        upload_to_cos, if_pos he, List.cons_append, List.append_assoc, List.singleton_append]
      simp
    · simp [List.mem_append, List.mem_replicate]
  · intro hd he
    have hbody : face_swap_body e =
        Event.vendorCreateCall ::
          (List.replicate (get_face_swap_result e.pollResps 30).2 Event.vendorPollCall ++
            [Event.downloadWrite, Event.uploadAttempt, Event.respond (wrap500 "上传失败")]) := by
      simp only [face_swap_body, hv1, hv2, Bool.and_self, if_pos, hc, hpoll, hd,
        upload_to_cos, if_neg he]
    rw [hbody]
    refine ⟨?_, ?_, ?_⟩
    · simp
    · simp [List.mem_append, List.mem_replicate]
    · simp

/-- Witness for C8 on the all-success environment. -/
theorem C8_cleanup_only_on_success_witness :
    ∃ pre cos_url, face_swap_body goodEnv =
        pre ++ [Event.uploadAttempt, Event.removeLocalFile,
          Event.respond (.success cos_url "https://v/out.jpg")] ∧
      Event.removeLocalFile ∉ pre :=
  (C8_cleanup_only_on_success goodEnv "J1" "https://v/out.jpg"
    (by decide) (by decide) (by decide) (by decide)).1 rfl (by decide)
